import Mathlib

/-!
Verification of the nexusevents event service (src/src/routes/events.routes.ts and
src/src/routes/admin.routes.ts) against its natural-language specification.

The TypeScript routes are shallowly embedded: the relational store (Prisma over
PostgreSQL) is a `DB` record of lists, each route handler is a pure Lean function
from the request data and the current `DB` to a result and an updated `DB`, and
the external services (auth, profile, badge eligibility) are passed in as explicit
parameters holding the value the network call would have returned. Timestamps are
naturals (milliseconds since epoch), matching JavaScript `Date.getTime()`.
-/

/-- `z.enum(["WORKSHOP", "SEMINAR", "HACKATHON", "MEETUP"])` in events.routes.ts. -/
inductive EventType where
  | WORKSHOP | SEMINAR | HACKATHON | MEETUP
deriving DecidableEq, Repr

/-- `z.enum(["ONLINE", "ONSITE", "HYBRID"])` in events.routes.ts. -/
inductive EventMode where
  | ONLINE | ONSITE | HYBRID
deriving DecidableEq, Repr

/-- `z.enum(["PENDING_REVIEW", "APPROVED", "REJECTED"])` in events.routes.ts. -/
inductive ModerationStatus where
  | PENDING_REVIEW | APPROVED | REJECTED
deriving DecidableEq, Repr

/-- The Event row as read and written by the routes (fields the handlers touch). -/
structure Event where
  id : String
  collegeId : String
  authorId : String
  authorName : String
  authorRole : String
  title : String
  description : String
  startAt : Nat
  endAt : Nat
  type : EventType
  mode : EventMode
  location : Option String
  meetingUrl : Option String
  capacity : Option Nat
  visibleToAllDepts : Bool
  departments : List String
  tags : List String
  moderationStatus : ModerationStatus
  monitorId : Option String
  monitorName : Option String
deriving DecidableEq, Repr

/-- The EventRegistration row: the (eventId, userId) join record with `joinedAt`. -/
structure EventRegistration where
  eventId : String
  userId : String
  joinedAt : Nat
deriving DecidableEq, Repr

/-- The EventApprovalFlow row, companion of a student-authored event. -/
structure EventApprovalFlow where
  eventId : String
  assignedTo : Option String
  assignedToName : Option String
  submittedAt : Nat
  approvedAt : Option Nat
  approvedBy : Option String
  approvedByName : Option String
  rejectedAt : Option Nat
  rejectedBy : Option String
  rejectedByName : Option String
  rejectionReason : Option String
  isEscalated : Bool
  escalatedAt : Option Nat
  escalatedTo : Option String
  escalatedToName : Option String
  mentorAssigned : Option String
  mentorName : Option String
deriving DecidableEq, Repr

/-- Per-college EscalationPolicy row read by `checkEscalation`. -/
structure EscalationPolicy where
  collegeId : String
  escalationDelayHours : Nat
  backupApprovers : List String
  autoEscalateToHead : Bool
deriving DecidableEq, Repr

/-- The relational store shared by all handlers. `headAdmins` records which
HEAD_ADMIN users exist per college in the surrounding system (the environment the
auth service would report); the routes only reach it through `findHeadAdmin`. -/
structure DB where
  events : List Event
  registrations : List EventRegistration
  flows : List EventApprovalFlow
  policies : List EscalationPolicy
  headAdmins : List (String × String × String)
deriving DecidableEq, Repr

/-- The (collegeId, department) scope `getUserScope` resolves for the caller. -/
structure Scope where
  collegeId : String
  department : String
deriving DecidableEq, Repr

/-- The access-token payload fields the routes read (`payload.sub`, `payload.roles`,
`payload.displayName`). -/
structure Principal where
  sub : String
  roles : List String
  displayName : Option String
deriving DecidableEq, Repr

/-- `hasRole` from events.routes.ts: `(payload.roles || []).includes(role)`. -/
def hasRole (p : Principal) (role : String) : Bool :=
  p.roles.contains role

/-- `prisma.event.findFirst({ where: { id, collegeId } })`. -/
def findEvent (db : DB) (id collegeId : String) : Option Event :=
  db.events.find? (fun e => e.id == id && e.collegeId == collegeId)

/-- `prisma.eventRegistration.count({ where: { eventId } })`. -/
def regCount (db : DB) (eventId : String) : Nat :=
  (db.registrations.filter (fun r => r.eventId == eventId)).length

/-- Whether a registration row for the (eventId, userId) pair exists — the unique
constraint whose violation Prisma surfaces as error code P2002. -/
def hasReg (db : DB) (eventId userId : String) : Bool :=
  db.registrations.any (fun r => r.eventId == eventId && r.userId == userId)

/-- Outcomes of POST /v1/events/:id/register. -/
inductive RegisterResult where
  /-- 404 "Not found" — event absent from the caller's college. -/
  | notFound
  /-- 400 "Event not open for registration". -/
  | notOpen
  /-- 400 "Event is full". -/
  | full
  /-- 409 "Already registered". -/
  | already
  /-- 200 with the created registration. -/
  | ok (r : EventRegistration)
deriving DecidableEq, Repr

/-- POST /v1/events/:id/register (events.routes.ts lines 561–589). The serializable
transaction is embedded as the sequential body: count registrations against
capacity, then insert; the P2002 unique-violation catch is the `hasReg` branch. -/
def register (db : DB) (scope : Scope) (userId id : String) (now : Nat) :
    RegisterResult × DB :=
  match findEvent db id scope.collegeId with
  | none => (.notFound, db)
  | some ev =>
    if ev.moderationStatus ≠ .APPROVED then (.notOpen, db)
    else
      let atCapacity : Bool :=
        match ev.capacity with
        | some cap => decide (regCount db ev.id ≥ cap)
        | none => false
      if atCapacity then (.full, db)
      else if hasReg db ev.id userId then (.already, db)
      else
        let r : EventRegistration := ⟨ev.id, userId, now⟩
        (.ok r, { db with registrations := db.registrations ++ [r] })

/-- Outcomes of DELETE /v1/events/:id/register. -/
inductive UnregisterResult where
  | notFound
  | success
deriving DecidableEq, Repr

/-- DELETE /v1/events/:id/register (events.routes.ts lines 592–604):
`deleteMany({ where: { eventId, userId } })` then `{ success: true }`. -/
def unregister (db : DB) (scope : Scope) (userId id : String) :
    UnregisterResult × DB :=
  match findEvent db id scope.collegeId with
  | none => (.notFound, db)
  | some ev =>
    let keep : EventRegistration → Bool :=
      fun r => !(r.eventId == ev.id && r.userId == userId)
    (.success, { db with registrations := db.registrations.filter keep })

/-- One step of the registration workload of a single event: a register or an
unregister request from some caller. -/
inductive RegOp where
  | reg (scope : Scope) (userId : String) (now : Nat)
  | unreg (scope : Scope) (userId : String)
deriving DecidableEq, Repr

/-- Apply a register/unregister request targeting event `id` to the store. -/
def applyRegOp (id : String) (db : DB) (op : RegOp) : DB :=
  match op with
  | .reg scope userId now => (register db scope userId id now).2
  | .unreg scope userId => (unregister db scope userId id).2

/-- Apply a sequence of register/unregister requests targeting event `id`. -/
def applyRegOps (id : String) (db : DB) (ops : List RegOp) : DB :=
  ops.foldl (applyRegOp id) db

/-- Truthiness of a JS optional string: `!x` holds when the field is absent or the
empty string. -/
def strFalsy : Option String → Bool
  | none => true
  | some s => s == ""

/-- Body of PATCH /v1/events/:id/moderate (`moderateSchema`). -/
inductive ModAction where
  | APPROVE | REJECT | ASSIGN
deriving DecidableEq, Repr

/-- Parsed `moderateSchema` body. -/
structure ModerateBody where
  action : ModAction
  monitorId : Option String
  monitorName : Option String
  mentorId : Option String
  mentorName : Option String
  rejectionReason : Option String
deriving DecidableEq, Repr

/-- Outcomes of PATCH /v1/events/:id/moderate. -/
inductive ModerateResult where
  /-- `requireRole` rejected the caller. -/
  | forbidden
  | notFound
  /-- 200 with the updated event (APPROVE / REJECT). -/
  | okEvent (e : Event)
  /-- 200 `{ success: true }` (ASSIGN). -/
  | okAssign
deriving DecidableEq, Repr

/-- `prisma.eventApprovalFlow.update({ where: { eventId } })` with the update
wrapped in try/catch: when no row matches, the thrown P2025 is swallowed and the
store is unchanged; otherwise the matching row is rewritten by `f`. -/
def updateFlow (flows : List EventApprovalFlow) (eventId : String)
    (f : EventApprovalFlow → EventApprovalFlow) : List EventApprovalFlow :=
  flows.map (fun fl => if fl.eventId == eventId then f fl else fl)

/-- Prisma `data` semantics for a field fed from an optional body value: an
`undefined` value leaves the column unchanged, a present value overwrites it. -/
def setIfSome (new : Option String) (old : Option String) : Option String :=
  match new with
  | some v => some v
  | none => old

/-- PATCH /v1/events/:id/moderate (events.routes.ts lines 462–559). `now` is the
value of `new Date()` during the handler. -/
def moderate (db : DB) (p : Principal) (scope : Scope) (id : String)
    (body : ModerateBody) (now : Nat) : ModerateResult × DB :=
  if !(hasRole p "DEPT_ADMIN" || hasRole p "HEAD_ADMIN") then (.forbidden, db)
  else
    match findEvent db id scope.collegeId with
    | none => (.notFound, db)
    | some ev =>
      match body.action with
      | .APPROVE =>
        let ev' := { ev with
          moderationStatus := .APPROVED,
          monitorId := setIfSome body.mentorId ev.monitorId,
          monitorName := setIfSome body.mentorName ev.monitorName }
        let events' := db.events.map (fun e => if e.id == id then ev' else e)
        let flows' := updateFlow db.flows id (fun fl =>
          { fl with
            approvedAt := some now,
            approvedBy := some p.sub,
            approvedByName := some (p.displayName.getD ""),
            mentorAssigned := setIfSome body.mentorId fl.mentorAssigned,
            mentorName := setIfSome body.mentorName fl.mentorName })
        (.okEvent ev', { db with events := events', flows := flows' })
      | .REJECT =>
        let ev' := { ev with moderationStatus := .REJECTED }
        let events' := db.events.map (fun e => if e.id == id then ev' else e)
        let flows' := updateFlow db.flows id (fun fl =>
          { fl with
            rejectedAt := some now,
            rejectedBy := some p.sub,
            rejectedByName := some (p.displayName.getD ""),
            rejectionReason := setIfSome body.rejectionReason fl.rejectionReason })
        (.okEvent ev', { db with events := events', flows := flows' })
      | .ASSIGN =>
        let flows' := updateFlow db.flows id (fun fl =>
          { fl with
            assignedTo := setIfSome body.monitorId fl.assignedTo,
            assignedToName := setIfSome body.monitorName fl.assignedToName })
        (.okAssign, { db with flows := flows' })

/-- `prisma.eventApprovalFlow.findUnique({ where: { eventId } })`. -/
def findFlow (db : DB) (eventId : String) : Option EventApprovalFlow :=
  db.flows.find? (fun fl => fl.eventId == eventId)

/-- `prisma.event.findUnique({ where: { id } })` — no college filter. -/
def findEventById (db : DB) (id : String) : Option Event :=
  db.events.find? (fun e => e.id == id)

/-- `prisma.escalationPolicy.findUnique({ where: { collegeId } })`. -/
def findPolicy (db : DB) (collegeId : String) : Option EscalationPolicy :=
  db.policies.find? (fun pol => pol.collegeId == collegeId)

/-- `findHeadAdmin` (events.routes.ts lines 172–183). The source is a stub: the
auth-service lookup is marked TODO and the function returns null for every
college, even when `db.headAdmins` records a HEAD_ADMIN for it. -/
def findHeadAdmin (db : DB) (collegeId : String) : Option (String × String) :=
  none

/-- `escalateEvent` (events.routes.ts lines 125–170). -/
def escalateEvent (db : DB) (eventId : String) (policy : Option EscalationPolicy)
    (now : Nat) : DB :=
  match findFlow db eventId with
  | none => db
  | some fl =>
    match findEventById db fl.eventId with
    | none => db
    | some ev =>
      let fromBackup : Option String :=
        match policy with
        | some pol =>
          match pol.backupApprovers with
          | b :: _ => some b
          | [] => none
        | none => none
      let escalated : Option (String × Option String) :=
        match fromBackup with
        | some b => some (b, none)
        | none =>
          if (policy.map (fun pol => pol.autoEscalateToHead)).getD false then
            match findHeadAdmin db ev.collegeId with
            | some (hid, hname) => some (hid, some hname)
            | none => none
          else none
      match escalated with
      | none => db
      | some (target, targetName) =>
        { db with flows := updateFlow db.flows eventId (fun fl2 =>
            { fl2 with
              isEscalated := true,
              escalatedAt := some now,
              escalatedTo := some target,
              escalatedToName := targetName,
              assignedTo := some target,
              assignedToName := targetName }) }

/-- `checkEscalation` (events.routes.ts lines 101–123): the escalation sweep for
one approval flow. `policy?.escalationDelayHours || 72` defaults both an absent
policy and a zero delay to 72 hours; the threshold is in milliseconds. -/
def checkEscalation (db : DB) (eventId : String) (now : Nat) : DB :=
  match findFlow db eventId with
  | none => db
  | some fl =>
    if fl.isEscalated || fl.approvedAt.isSome || fl.rejectedAt.isSome then db
    else
      match findEventById db fl.eventId with
      | none => db
      | some ev =>
        let policy := findPolicy db ev.collegeId
        let hours :=
          match policy with
          | some pol =>
            if pol.escalationDelayHours == 0 then 72 else pol.escalationDelayHours
          | none => 72
        if now ≥ fl.submittedAt + hours * 60 * 60 * 1000 then
          escalateEvent db eventId policy now
        else db

/-- Result of a single-event fetch. -/
inductive FetchResult where
  | ok (e : Event)
  /-- 404 "Not found". -/
  | notFound
  /-- 403 Forbidden / "Access denied". -/
  | forbidden
deriving DecidableEq, Repr

/-- The student visibility predicate of GET /v1/events/:id (events.routes.ts
line 306): APPROVED and (visibleToAllDepts or caller department listed). -/
def studentVisible (ev : Event) (scope : Scope) : Bool :=
  ev.moderationStatus == .APPROVED
    && (ev.visibleToAllDepts || ev.departments.contains scope.department)

/-- GET /v1/events/:id (events.routes.ts lines 294–316). -/
def getEvent (db : DB) (p : Principal) (scope : Scope) (id : String) : FetchResult :=
  match findEvent db id scope.collegeId with
  | none => .notFound
  | some ev =>
    if hasRole p "STUDENT" && !studentVisible ev scope then .notFound
    else .ok ev

/-- Modelled from the spec: `canAccessCollege` lives in
src/middlewares/adminAuth.ts, which is not among the provided sources. Per the
spec's college-scoped access rules ("role-based with college-scoped data
isolation"), a HEAD_ADMIN may access records of their own college only. -/
def canAccessCollege (adminCollegeId collegeId : String) : Bool :=
  adminCollegeId == collegeId

/-- GET /v1/admin/events/:id (admin.routes.ts lines 193–246): `findUnique` by id
with no college filter, 404 when absent, 403 when `canAccessCollege` fails. -/
def adminGetEvent (db : DB) (adminCollegeId id : String) : FetchResult :=
  match findEventById db id with
  | none => .notFound
  | some ev =>
    if !canAccessCollege adminCollegeId ev.collegeId then .forbidden
    else .ok ev

/-- Boolean prefix test over character lists. -/
def listPrefixOf : List Char → List Char → Bool
  | [], _ => true
  | _ :: _, [] => false
  | a :: as, b :: bs => a == b && listPrefixOf as bs

/-- Boolean infix test over character lists. -/
def listInfixOf (needle : List Char) : List Char → Bool
  | [] => listPrefixOf needle []
  | b :: bs => listPrefixOf needle (b :: bs) || listInfixOf needle bs

/-- Prisma `{ contains: pat, mode: "insensitive" }` on a string column:
case-insensitive substring test, with lowercasing done character by character. -/
def containsCI (s pat : String) : Bool :=
  listInfixOf (pat.toList.map Char.toLower) (s.toList.map Char.toLower)

/-- Parsed `listQuerySchema` (GET /v1/events query string) after zod defaults:
`page` defaults to 1 and `limit` to 20. `fromAt`/`toAt` stand for the `from`/`to`
parameters (`from` is a reserved word here). -/
structure ListQuery where
  q : Option String
  department : Option String
  type : Option EventType
  mode : Option EventMode
  status : Option ModerationStatus
  fromAt : Option Nat
  toAt : Option Nat
  upcomingOnly : Bool
  page : Nat
  limit : Nat
deriving DecidableEq, Repr

/-- The pair of visibility disjuncts `{ visibleToAllDepts: true }` /
`{ departments: { has: dept } }` pushed onto the `OR` list of GET /v1/events. -/
def visibilityConds (dept : String) : List (Event → Bool) :=
  [fun ev => ev.visibleToAllDepts, fun ev => ev.departments.contains dept]

/-- The two text-search disjuncts appended when `q.q` is supplied. -/
def searchConds (srch : String) : List (Event → Bool) :=
  [fun ev => containsCI ev.title srch, fun ev => containsCI ev.description srch]

/-- The `OR` list accumulated by GET /v1/events: the student visibility pair,
extended by the search pair when `q.q` is given, extended again by a visibility
pair for `q.department` when given. -/
def listOrConds (scope : Scope) (isStudent : Bool) (q : ListQuery) :
    List (Event → Bool) :=
  (if isStudent then visibilityConds scope.department else [])
    ++ (q.q.elim [] searchConds)
    ++ (q.department.elim [] visibilityConds)

/-- The `where` object GET /v1/events builds (events.routes.ts lines 224–260),
denoted as a predicate on events. The `OR` key is a disjunction when the list is
non-empty and absent (true) when never populated; all other keys conjoin. For a
STUDENT the OR list starts with the two visibility disjuncts and is then
extended — not intersected — by the text-search and department disjuncts. -/
def listWhere (scope : Scope) (isStudent : Bool) (q : ListQuery) (now : Nat)
    (e : Event) : Bool :=
  let statusOk : Bool :=
    if isStudent then e.moderationStatus == .APPROVED
    else
      match q.status with
      | some st => e.moderationStatus == st
      | none => true
  let orConds := listOrConds scope isStudent q
  let orOk : Bool :=
    match orConds with
    | [] => true
    | _ :: _ => orConds.any (fun pred => pred e)
  let typeOk : Bool :=
    match q.type with
    | some t => e.type == t
    | none => true
  let modeOk : Bool :=
    match q.mode with
    | some m => e.mode == m
    | none => true
  let gte : Option Nat := if q.upcomingOnly then some now else q.fromAt
  let startOk : Bool :=
    (match gte with | some g => decide (e.startAt ≥ g) | none => true)
      && (match q.toAt with | some t => decide (e.startAt ≤ t) | none => true)
  e.collegeId == scope.collegeId && statusOk && orOk && typeOk && modeOk && startOk

/-- Insertion of an event into a list sorted by ascending `startAt`. -/
def insertByStart (e : Event) : List Event → List Event
  | [] => [e]
  | x :: xs => if e.startAt ≤ x.startAt then e :: x :: xs else x :: insertByStart e xs

/-- `orderBy: { startAt: "asc" }` as an insertion sort. -/
def sortByStart : List Event → List Event
  | [] => []
  | x :: xs => insertByStart x (sortByStart xs)

/-- GET /v1/events (events.routes.ts lines 215–291): filter by the built `where`,
order by `startAt` ascending, then apply `skip`/`take` pagination. Only the page
of events is modelled; the `total` count and the per-event registration
decorations do not affect which events are returned. -/
def listEvents (db : DB) (scope : Scope) (isStudent : Bool) (q : ListQuery)
    (now : Nat) : List Event :=
  (((sortByStart (db.events.filter (listWhere scope isStudent q now))).drop
      ((q.page - 1) * q.limit)).take q.limit)

/-- The identity record `getUserIdentity` returns from the auth service. -/
structure Identity where
  id : String
  displayName : String
  roles : List String
  collegeId : String
  department : String
deriving DecidableEq, Repr

/-- Parsed `createEventSchema` body (zod defaults already applied:
`visibleToAllDepts` defaults to true, `departments` and `tags` to []). The two
`new Date(...)`/isNaN checks of the handler are subsumed by `startAt`/`endAt`
being instants here, since `z.string().datetime()` already admits only parseable
timestamps. -/
structure CreateBody where
  title : String
  description : String
  startAt : Nat
  endAt : Option Nat
  type : EventType
  mode : EventMode
  location : Option String
  meetingUrl : Option String
  capacity : Option Nat
  visibleToAllDepts : Bool
  departments : List String
  tags : List String
deriving DecidableEq, Repr

/-- Outcomes of POST /v1/events. -/
inductive CreateResult where
  /-- 400 "endAt must be after or equal to startAt". -/
  | badEnd
  /-- 400 "meetingUrl is required for ONLINE/HYBRID". -/
  | missingMeetingUrl
  /-- 400 "location is required for ONSITE/HYBRID". -/
  | missingLocation
  /-- 403 "Missing required badges". -/
  | notEligible
  /-- 200 with the created event. -/
  | ok (e : Event)
deriving DecidableEq, Repr

/-- POST /v1/events (events.routes.ts lines 319–386). External inputs are passed
explicitly: `canCreate` is the badge-eligibility verdict (only consulted for
STUDENT authors; `ensureStudentEligibility` short-circuits to true otherwise),
`deptAdmin` is what `findDepartmentAdmin` returned (id, displayName), `newId` the
id the store assigns, and `now` the `submittedAt` default of the approval flow. -/
def createEvent (db : DB) (identity : Identity) (body : CreateBody)
    (canCreate : Bool) (deptAdmin : Option (String × String)) (newId : String)
    (now : Nat) : CreateResult × DB :=
  let startAt := body.startAt
  let endAt := body.endAt.getD startAt
  if body.endAt.isSome && decide (endAt < startAt) then (.badEnd, db)
  else if body.mode ≠ .ONSITE && strFalsy body.meetingUrl then
    (.missingMeetingUrl, db)
  else if body.mode ≠ .ONLINE && strFalsy body.location then
    (.missingLocation, db)
  else
    let isStudent := identity.roles.contains "STUDENT"
    if isStudent && !canCreate then (.notEligible, db)
    else
      let created : Event := {
        id := newId
        collegeId := identity.collegeId
        authorId := identity.id
        authorName := identity.displayName
        authorRole := if isStudent then "STUDENT" else identity.roles.headD "UNKNOWN"
        title := body.title
        description := body.description
        startAt := startAt
        endAt := endAt
        type := body.type
        mode := body.mode
        location := body.location
        meetingUrl := body.meetingUrl
        capacity := body.capacity
        visibleToAllDepts := body.visibleToAllDepts
        departments := if body.visibleToAllDepts then [] else body.departments
        tags := body.tags
        moderationStatus := if isStudent then .PENDING_REVIEW else .APPROVED
        monitorId := none
        monitorName := none }
      let db1 := { db with events := db.events ++ [created] }
      if isStudent then
        let fl : EventApprovalFlow := {
          eventId := newId
          assignedTo := deptAdmin.map Prod.fst
          assignedToName := deptAdmin.map Prod.snd
          submittedAt := now
          approvedAt := none
          approvedBy := none
          approvedByName := none
          rejectedAt := none
          rejectedBy := none
          rejectedByName := none
          rejectionReason := none
          isEscalated := false
          escalatedAt := none
          escalatedTo := none
          escalatedToName := none
          mentorAssigned := none
          mentorName := none }
        (.ok created, { db1 with flows := db1.flows ++ [fl] })
      else (.ok created, db1)

/-- Parsed `updateEventSchema` body: every field of `createEventSchema` made
optional by `.partial()`; an absent field stays absent (zod defaults do not fire
through `.optional()`). -/
structure UpdateBody where
  title : Option String
  description : Option String
  startAt : Option Nat
  endAt : Option Nat
  type : Option EventType
  mode : Option EventMode
  location : Option String
  meetingUrl : Option String
  capacity : Option Nat
  visibleToAllDepts : Option Bool
  departments : Option (List String)
  tags : Option (List String)
deriving DecidableEq, Repr

/-- Outcomes of PUT /v1/events/:id. -/
inductive UpdateResult where
  | notFound
  | forbidden
  /-- 400 "endAt must be after or equal to startAt". -/
  | badEnd
  | ok (e : Event)
deriving DecidableEq, Repr

/-- The `updateData` object PUT /v1/events/:id assembles (lines 410–427), applied
to the stored row: supplied fields overwrite, absent fields keep the old value.
`departments`, when supplied, is blanked whenever the effective
`visibleToAllDepts` (the supplied value if any, else the stored one) is true. -/
def applyUpdate (ev : Event) (body : UpdateBody) : Event :=
  let newVisible := body.visibleToAllDepts.getD ev.visibleToAllDepts
  { ev with
    title := body.title.getD ev.title
    description := body.description.getD ev.description
    startAt := body.startAt.getD ev.startAt
    endAt := body.endAt.getD ev.endAt
    type := body.type.getD ev.type
    mode := body.mode.getD ev.mode
    location := setIfSome body.location ev.location
    meetingUrl := setIfSome body.meetingUrl ev.meetingUrl
    capacity := match body.capacity with | some c => some c | none => ev.capacity
    visibleToAllDepts := newVisible
    departments :=
      match body.departments with
      | some ds => if newVisible then [] else ds
      | none => ev.departments
    tags := body.tags.getD ev.tags }

/-- PUT /v1/events/:id (events.routes.ts lines 389–435). The
endAt-before-startAt rejection fires only when the request supplies both
`startAt` and `endAt` (`if (updateData.startAt && updateData.endAt && ...)`);
no mode-dependent required-field check is performed on update. -/
def updateEvent (db : DB) (p : Principal) (scope : Scope) (id : String)
    (body : UpdateBody) : UpdateResult × DB :=
  match findEvent db id scope.collegeId with
  | none => (.notFound, db)
  | some ev =>
    let isStudent := hasRole p "STUDENT"
    let isOwner := ev.authorId == p.sub
    let canStudentEdit :=
      isStudent && isOwner && ev.moderationStatus == .PENDING_REVIEW
    let isPrivileged :=
      hasRole p "FACULTY" || hasRole p "DEPT_ADMIN" || hasRole p "HEAD_ADMIN"
    if !canStudentEdit && !isPrivileged then (.forbidden, db)
    else
      let bothDatesBad : Bool :=
        body.startAt.isSome && body.endAt.isSome
          && decide (body.endAt.getD 0 < body.startAt.getD 0)
      if bothDatesBad then (.badEnd, db)
      else
        let ev' := applyUpdate ev body
        (.ok ev',
          { db with events := db.events.map (fun e => if e.id == id then ev' else e) })

theorem register_events_eq (db : DB) (scope : Scope) (userId id : String)
    (now : Nat) : (register db scope userId id now).2.events = db.events := by
  unfold register
  split
  · rfl
  · split
    · rfl
    · split <;> split <;> (try rfl) <;> dsimp only <;> split <;> rfl

theorem unregister_events_eq (db : DB) (scope : Scope) (userId id : String) :
    (unregister db scope userId id).2.events = db.events := by
  unfold unregister
  split
  · rfl
  · rfl

theorem applyRegOp_events_eq (id : String) (db : DB) (op : RegOp) :
    (applyRegOp id db op).events = db.events := by
  cases op with
  | reg scope userId now => exact register_events_eq db scope userId id now
  | unreg scope userId => exact unregister_events_eq db scope userId id

/-- The event returned by `findEvent db id collegeId` is a stored row whose id is
the requested one. -/
theorem findEvent_spec (db : DB) (id collegeId : String) (ev : Event)
    (h : findEvent db id collegeId = some ev) :
    ev ∈ db.events ∧ ev.id = id ∧ ev.collegeId = collegeId := by
  refine ⟨List.mem_of_find?_eq_some h, ?_, ?_⟩
  · have hp := List.find?_some h
    simp only [Bool.and_eq_true, beq_iff_eq] at hp
    exact hp.1
  · have hp := List.find?_some h
    simp only [Bool.and_eq_true, beq_iff_eq] at hp
    exact hp.2

/-- One register or unregister step cannot push the registration count of an
event past its stored capacity. -/
theorem regCount_applyRegOp_le (db : DB) (E : String) (C : Nat) (op : RegOp)
    (hcap : ∀ e ∈ db.events, e.id = E → e.capacity = some C)
    (hle : regCount db E ≤ C) :
    regCount (applyRegOp E db op) E ≤ C := by
  cases op with
  | unreg scope userId =>
    show regCount (unregister db scope userId E).2 E ≤ C
    unfold unregister
    split
    · exact hle
    · unfold regCount
      refine le_trans (List.Sublist.length_le ?_) hle
      exact List.Sublist.filter _ (List.filter_sublist _)
  | reg scope userId now =>
    show regCount (register db scope userId E now).2 E ≤ C
    unfold register
    split
    · exact hle
    · rename_i ev hfind
      have hspec := findEvent_spec db E scope.collegeId ev hfind
      have hcapE : ev.capacity = some C := hcap ev hspec.1 hspec.2.1
      split
      · exact hle
      · split
        · rename_i cap hcapEq
          rw [hcapE] at hcapEq
          injection hcapEq with hCC
          subst hCC
          dsimp only
          split
          · exact hle
          · split
            · exact hle
            · rename_i hnotFull _
              simp only [decide_eq_true_eq, not_le] at hnotFull
              unfold regCount at hnotFull ⊢
              rw [hspec.2.1] at hnotFull ⊢
              simp only [List.filter_append, List.length_append,
                List.filter_cons, List.filter_nil, beq_self_eq_true, if_pos,
                List.length_cons, List.length_nil]
              omega
        · rename_i hnone
          simp [hcapE] at hnone

/-- No sequence of register/unregister requests pushes the registration count of
an event past its stored capacity. -/
theorem regCount_applyRegOps_le (db : DB) (E : String) (C : Nat)
    (ops : List RegOp)
    (hcap : ∀ e ∈ db.events, e.id = E → e.capacity = some C)
    (hle : regCount db E ≤ C) :
    regCount (applyRegOps E db ops) E ≤ C := by
  induction ops generalizing db with
  | nil => exact hle
  | cons op rest ih =>
    show regCount (applyRegOps E (applyRegOp E db op) rest) E ≤ C
    refine ih (applyRegOp E db op) ?_ ?_
    · intro e he
      rw [applyRegOp_events_eq] at he
      exact hcap e he
    · exact regCount_applyRegOp_le db E C op hcap hle

/-- C1: for every event with a capacity set, a register call that finds the
current registration count at or above the capacity reports Full and writes no
registration row; consequently, starting from a store whose count for the event
is within capacity, no sequence of register/unregister operations ever pushes
the count past the capacity. -/
theorem register_capacity_enforced :
    (∀ (db : DB) (scope : Scope) (userId id : String) (now : Nat) (ev : Event)
      (C : Nat),
      findEvent db id scope.collegeId = some ev →
      ev.moderationStatus = ModerationStatus.APPROVED →
      ev.capacity = some C →
      regCount db ev.id ≥ C →
      register db scope userId id now = (RegisterResult.full, db))
    ∧ (∀ (db : DB) (E : String) (C : Nat) (ops : List RegOp),
      (∀ e ∈ db.events, e.id = E → e.capacity = some C) →
      regCount db E ≤ C →
      regCount (applyRegOps E db ops) E ≤ C) := by
  constructor
  · intro db scope userId id now ev C hfind hstatus hcap hfull
    unfold register
    rw [hfind]
    simp [hstatus, hcap, hfull]
  · exact fun db E C ops h1 h2 => regCount_applyRegOps_le db E C ops h1 h2

def scopeW1 : Scope := { collegeId := "X", department := "CS" }

def evW1 : Event := {
  id := "e1", collegeId := "X", authorId := "f1", authorName := "Fac",
  authorRole := "FACULTY", title := "t", description := "d", startAt := 0,
  endAt := 0, type := EventType.WORKSHOP, mode := EventMode.ONSITE,
  location := some "hall", meetingUrl := none, capacity := some 2,
  visibleToAllDepts := true, departments := [], tags := [],
  moderationStatus := ModerationStatus.APPROVED, monitorId := none,
  monitorName := none }

def dbW1 : DB := {
  events := [evW1],
  registrations := [⟨"e1", "u1", 1⟩, ⟨"e1", "u2", 2⟩],
  flows := [], policies := [], headAdmins := [] }

def opsW1 : List RegOp :=
  [RegOp.reg scopeW1 "u3" 3, RegOp.unreg scopeW1 "u1",
   RegOp.reg scopeW1 "u4" 4, RegOp.reg scopeW1 "u5" 5]

/-- Witness for C1: a capacity-2 event holding two registrations turns a third
caller away with Full, and a mixed workload keeps the count at or below 2. -/
theorem register_capacity_enforced_witness :
    register dbW1 scopeW1 "u3" "e1" 3 = (RegisterResult.full, dbW1)
    ∧ regCount (applyRegOps "e1" dbW1 opsW1) "e1" ≤ 2 :=
  ⟨register_capacity_enforced.1 dbW1 scopeW1 "u3" "e1" 3 evW1 2 (by decide)
      (by decide) (by decide) (by decide),
   register_capacity_enforced.2 dbW1 "e1" 2 opsW1 (by decide) (by decide)⟩

/-- At most one registration row per (eventId, userId) pair — the unique
constraint on EventRegistration that Prisma enforces (violations surface as
P2002). -/
def uniquePairs (regs : List EventRegistration) : Prop :=
  List.Pairwise (fun r s => ¬(r.eventId = s.eventId ∧ r.userId = s.userId)) regs

theorem uniquePairs_insert (regs : List EventRegistration) (eid uid : String)
    (now : Nat) (h : uniquePairs regs)
    (hno : regs.any (fun r => r.eventId == eid && r.userId == uid) = false) :
    uniquePairs (regs ++ [⟨eid, uid, now⟩]) := by
  unfold uniquePairs at h ⊢
  rw [List.pairwise_append]
  refine ⟨h, List.pairwise_singleton _ _, ?_⟩
  intro a ha b hb
  simp only [List.mem_singleton] at hb
  subst hb
  rw [List.any_eq_false] at hno
  have hna := hno a ha
  simp only [Bool.and_eq_true, beq_iff_eq, not_and] at hna
  intro hcon
  exact absurd hcon.2 (hna hcon.1)

theorem uniquePairs_applyRegOp (id : String) (db : DB) (op : RegOp)
    (h : uniquePairs db.registrations) :
    uniquePairs (applyRegOp id db op).registrations := by
  cases op with
  | unreg scope userId =>
    show uniquePairs (unregister db scope userId id).2.registrations
    unfold unregister
    split
    · exact h
    · exact List.Pairwise.sublist (List.filter_sublist _) h
  | reg scope userId now =>
    show uniquePairs (register db scope userId id now).2.registrations
    unfold register
    split
    · exact h
    · split
      · exact h
      · split
        · dsimp only
          split
          · exact h
          · split
            · exact h
            · rename_i hNotReg
              simp only [Bool.not_eq_true] at hNotReg
              unfold hasReg at hNotReg
              exact uniquePairs_insert _ _ _ _ h hNotReg
        · dsimp only
          simp only [Bool.false_eq_true, if_false]
          split
          · exact h
          · rename_i hNotReg
            simp only [Bool.not_eq_true] at hNotReg
            unfold hasReg at hNotReg
            exact uniquePairs_insert _ _ _ _ h hNotReg

theorem uniquePairs_applyRegOps (E : String) (db : DB) (ops : List RegOp)
    (h : uniquePairs db.registrations) :
    uniquePairs (applyRegOps E db ops).registrations := by
  induction ops generalizing db with
  | nil => exact h
  | cons op rest ih => exact ih _ (uniquePairs_applyRegOp E db op h)

theorem register_already_branch (db : DB) (scope : Scope) (userId id : String)
    (now : Nat) (ev : Event)
    (hfind : findEvent db id scope.collegeId = some ev)
    (hstatus : ev.moderationStatus = ModerationStatus.APPROVED)
    (hnotfull : ∀ C, ev.capacity = some C → regCount db ev.id < C)
    (hreg : hasReg db ev.id userId = true) :
    register db scope userId id now = (RegisterResult.already, db) := by
  unfold register
  rw [hfind]
  cases hcap : ev.capacity with
  | none => simp [hstatus, hcap, hreg]
  | some C =>
    have hlt := hnotfull C hcap
    simp [hstatus, hcap, hreg, Nat.not_le.mpr hlt]

def evX2 : Event := {
  id := "e1", collegeId := "X", authorId := "f1", authorName := "Fac",
  authorRole := "FACULTY", title := "t", description := "d", startAt := 0,
  endAt := 0, type := EventType.WORKSHOP, mode := EventMode.ONSITE,
  location := some "hall", meetingUrl := none, capacity := some 1,
  visibleToAllDepts := true, departments := [], tags := [],
  moderationStatus := ModerationStatus.APPROVED, monitorId := none,
  monitorName := none }

def dbX2 : DB := {
  events := [evX2],
  registrations := [⟨"e1", "u1", 1⟩],
  flows := [], policies := [], headAdmins := [] }

/-- C2 counterexample: the capacity check runs before the duplicate check, so a
user who already holds the sole registration of a capacity-1 event is told the
event is Full, not AlreadyRegistered, on a second attempt. -/
theorem register_full_shadows_already_cex :
    hasReg dbX2 "e1" "u1" = true
    ∧ (register dbX2 ⟨"X", "CS"⟩ "u1" "e1" 5).1 = RegisterResult.full
    ∧ (register dbX2 ⟨"X", "CS"⟩ "u1" "e1" 5).1 ≠ RegisterResult.already := by
  refine ⟨by decide, by decide, by decide⟩

/-- C2 (amended): at most one registration row ever exists per (eventId, userId)
pair — any register/unregister workload preserves pairwise uniqueness and a
duplicate insert is refused — and a register call by an already-registered user
reports AlreadyRegistered with no row written, provided the event is not at
capacity (at capacity, the earlier capacity check reports Full instead). -/
theorem register_duplicate_protection :
    (∀ (db : DB) (scope : Scope) (userId id : String) (now : Nat) (ev : Event),
      findEvent db id scope.collegeId = some ev →
      ev.moderationStatus = ModerationStatus.APPROVED →
      (∀ C, ev.capacity = some C → regCount db ev.id < C) →
      hasReg db ev.id userId = true →
      register db scope userId id now = (RegisterResult.already, db))
    ∧ (∀ (E : String) (db : DB) (ops : List RegOp),
      uniquePairs db.registrations →
      uniquePairs (applyRegOps E db ops).registrations) :=
  ⟨register_already_branch, uniquePairs_applyRegOps⟩

def dbW2 : DB := {
  events := [evW1],
  registrations := [⟨"e1", "u1", 1⟩],
  flows := [], policies := [], headAdmins := [] }

/-- Witness for the amended C2: on a capacity-2 event holding only u1's
registration, u1's second attempt reports AlreadyRegistered and the store is
unchanged; a concrete workload keeps the pair-uniqueness invariant. -/
theorem register_duplicate_protection_witness :
    register dbW2 scopeW1 "u1" "e1" 7 = (RegisterResult.already, dbW2)
    ∧ uniquePairs (applyRegOps "e1" dbW2 opsW1).registrations :=
  ⟨register_duplicate_protection.1 dbW2 scopeW1 "u1" "e1" 7 evW1 (by decide)
      (by decide) (by decide) (by decide),
   register_duplicate_protection.2 "e1" dbW2 opsW1
      (by unfold uniquePairs; exact List.pairwise_singleton _ _)⟩

/-- The filter predicate `deleteMany` leaves in place: rows not matching the
(eventId, userId) pair. -/
def keepFor (eid uid : String) : EventRegistration → Bool :=
  fun r => !(r.eventId == eid && r.userId == uid)

theorem unregister_eq (db : DB) (scope : Scope) (userId id : String) (ev : Event)
    (hfind : findEvent db id scope.collegeId = some ev) :
    unregister db scope userId id
      = (UnregisterResult.success,
          { db with registrations := db.registrations.filter (keepFor ev.id userId) }) := by
  unfold unregister
  rw [hfind]
  rfl

/-- C10: for an event within the caller's college scope, unregister always
reports success; it removes exactly the caller's registration rows for that
event; when no such registration exists the store is unchanged; and a second
call reports success again without further change. -/
theorem unregister_idempotent (db : DB) (scope : Scope) (userId id : String)
    (ev : Event) (hfind : findEvent db id scope.collegeId = some ev) :
    (unregister db scope userId id).1 = UnregisterResult.success
    ∧ (unregister db scope userId id).2.registrations
        = db.registrations.filter (keepFor ev.id userId)
    ∧ (hasReg db ev.id userId = false → (unregister db scope userId id).2 = db)
    ∧ unregister (unregister db scope userId id).2 scope userId id
        = (UnregisterResult.success, (unregister db scope userId id).2) := by
  have hkeep : ∀ (l : List EventRegistration),
      (l.filter (keepFor ev.id userId)).filter (keepFor ev.id userId)
        = l.filter (keepFor ev.id userId) :=
    fun l => List.filter_eq_self.mpr (fun a ha => (List.mem_filter.mp ha).2)
  refine ⟨?_, ?_, ?_, ?_⟩
  · rw [unregister_eq db scope userId id ev hfind]
  · rw [unregister_eq db scope userId id ev hfind]
  · intro hno
    have hall : db.registrations.filter (keepFor ev.id userId)
        = db.registrations := by
      refine List.filter_eq_self.mpr ?_
      intro a ha
      unfold hasReg at hno
      rw [List.any_eq_false] at hno
      have hn := hno a ha
      simp only [Bool.not_eq_true] at hn
      simp [keepFor, hn]
    rw [unregister_eq db scope userId id ev hfind]
    dsimp only
    rw [hall]
  · have hfind2 : findEvent
        { db with registrations := db.registrations.filter (keepFor ev.id userId) }
        id scope.collegeId = some ev := hfind
    rw [unregister_eq db scope userId id ev hfind]
    dsimp only
    rw [unregister_eq _ scope userId id ev hfind2, hkeep]

def dbW10 : DB := {
  events := [evW1], registrations := [], flows := [], policies := [],
  headAdmins := [] }

/-- Witness for C10: unregistering a never-registered user from a stored event
succeeds, leaves the store unchanged, and a second call succeeds again. -/
theorem unregister_idempotent_witness :
    (unregister dbW10 scopeW1 "u9" "e1").1 = UnregisterResult.success
    ∧ (unregister dbW10 scopeW1 "u9" "e1").2 = dbW10
    ∧ unregister (unregister dbW10 scopeW1 "u9" "e1").2 scopeW1 "u9" "e1"
        = (UnregisterResult.success, (unregister dbW10 scopeW1 "u9" "e1").2) := by
  have h := unregister_idempotent dbW10 scopeW1 "u9" "e1" evW1 (by decide)
  exact ⟨h.1, h.2.2.1 (by decide), h.2.2.2⟩

theorem findFlow_updateFlow (fls : List EventApprovalFlow) (id : String)
    (f : EventApprovalFlow → EventApprovalFlow) (fl : EventApprovalFlow)
    (hpres : ∀ g, (f g).eventId = g.eventId)
    (hfind : fls.find? (fun g => g.eventId == id) = some fl) :
    (updateFlow fls id f).find? (fun g => g.eventId == id) = some (f fl) := by
  induction fls with
  | nil => simp at hfind
  | cons g gs ih =>
    unfold updateFlow
    by_cases hg : (g.eventId == id) = true
    · rw [List.find?_cons_of_pos (p := fun x : EventApprovalFlow => x.eventId == id) gs hg] at hfind
      injection hfind with h
      subst h
      simp only [List.map_cons, if_pos hg]
      refine List.find?_cons_of_pos (p := fun x : EventApprovalFlow => x.eventId == id) _ ?_
      show ((f g).eventId == id) = true
      rw [hpres]
      exact hg
    · rw [List.find?_cons_of_neg (p := fun x : EventApprovalFlow => x.eventId == id) gs hg] at hfind
      simp only [List.map_cons, if_neg hg]
      rw [List.find?_cons_of_neg (p := fun x : EventApprovalFlow => x.eventId == id) _ ?_]
      · exact ih hfind
      · show ¬(g.eventId == id) = true
        exact hg

def evX3 : Event := {
  id := "e1", collegeId := "X", authorId := "s1", authorName := "Stu",
  authorRole := "STUDENT", title := "t", description := "d", startAt := 0,
  endAt := 0, type := EventType.WORKSHOP, mode := EventMode.ONSITE,
  location := some "hall", meetingUrl := none, capacity := none,
  visibleToAllDepts := true, departments := [], tags := [],
  moderationStatus := ModerationStatus.APPROVED, monitorId := none,
  monitorName := none }

def flX3 : EventApprovalFlow := {
  eventId := "e1", assignedTo := none, assignedToName := none, submittedAt := 0,
  approvedAt := some 10, approvedBy := some "adm0", approvedByName := some "A0",
  rejectedAt := none, rejectedBy := none, rejectedByName := none,
  rejectionReason := none, isEscalated := false, escalatedAt := none,
  escalatedTo := none, escalatedToName := none, mentorAssigned := none,
  mentorName := none }

def dbX3 : DB := {
  events := [evX3], registrations := [], flows := [flX3], policies := [],
  headAdmins := [] }

def admX3 : Principal := { sub := "adm", roles := ["DEPT_ADMIN"], displayName := some "Admin" }

def rejectBodyX3 : ModerateBody := {
  action := ModAction.REJECT, monitorId := none, monitorName := none,
  mentorId := none, mentorName := none, rejectionReason := some "dup" }

/-- C3 counterexample: a REJECT on a flow whose approvedAt is already set stamps
rejectedAt while approvedAt stays set — afterwards both timestamps are set and
the action was not a no-op, contradicting the claimed terminality invariant. -/
theorem moderate_terminal_flow_cex :
    flX3.approvedAt = some 10 ∧ flX3.rejectedAt = none
    ∧ (findFlow (moderate dbX3 admX3 ⟨"X", "CS"⟩ "e1" rejectBodyX3 20).2 "e1").map
        (fun g => (g.approvedAt, g.rejectedAt)) = some (some 10, some 20) :=
  ⟨rfl, rfl, by decide⟩

/-- C3 (amended): moderation APPROVE always overwrites the flow's approvedAt with
the action time (and REJECT its rejectedAt), whatever was set before: a resolved
flow is not terminal, a second APPROVE re-stamps approvedAt, and an APPROVE
followed by a REJECT leaves both timestamps set. -/
theorem moderate_always_stamps (db : DB) (p : Principal) (scope : Scope)
    (id : String) (body : ModerateBody) (now : Nat) (ev : Event)
    (fl : EventApprovalFlow)
    (hrole : (hasRole p "DEPT_ADMIN" || hasRole p "HEAD_ADMIN") = true)
    (hfind : findEvent db id scope.collegeId = some ev)
    (hflow : findFlow db id = some fl) :
    (body.action = ModAction.APPROVE →
      findFlow (moderate db p scope id body now).2 id
        = some { fl with
            approvedAt := some now,
            approvedBy := some p.sub,
            approvedByName := some (p.displayName.getD ""),
            mentorAssigned := setIfSome body.mentorId fl.mentorAssigned,
            mentorName := setIfSome body.mentorName fl.mentorName })
    ∧ (body.action = ModAction.REJECT →
      findFlow (moderate db p scope id body now).2 id
        = some { fl with
            rejectedAt := some now,
            rejectedBy := some p.sub,
            rejectedByName := some (p.displayName.getD ""),
            rejectionReason := setIfSome body.rejectionReason fl.rejectionReason }) := by
  constructor
  · intro hact
    unfold moderate
    rw [hrole, hfind]
    simp only [Bool.not_true, Bool.false_eq_true, if_false]
    rw [hact]
    unfold findFlow
    exact findFlow_updateFlow db.flows id _ fl (fun g => rfl) hflow
  · intro hact
    unfold moderate
    rw [hrole, hfind]
    simp only [Bool.not_true, Bool.false_eq_true, if_false]
    rw [hact]
    unfold findFlow
    exact findFlow_updateFlow db.flows id _ fl (fun g => rfl) hflow

def flW3 : EventApprovalFlow := {
  eventId := "e1", assignedTo := none, assignedToName := none, submittedAt := 0,
  approvedAt := none, approvedBy := none, approvedByName := none,
  rejectedAt := none, rejectedBy := none, rejectedByName := none,
  rejectionReason := none, isEscalated := false, escalatedAt := none,
  escalatedTo := none, escalatedToName := none, mentorAssigned := none,
  mentorName := none }

def dbW3 : DB := {
  events := [evX3], registrations := [], flows := [flW3], policies := [],
  headAdmins := [] }

def approveBodyW3 : ModerateBody := {
  action := ModAction.APPROVE, monitorId := none, monitorName := none,
  mentorId := some "m1", mentorName := some "Mentor", rejectionReason := none }

/-- Witness for the amended C3: a DEPT_ADMIN approving a pending flow stamps
approvedAt/approvedBy and the mentor fields. -/
theorem moderate_always_stamps_witness :
    findFlow (moderate dbW3 admX3 ⟨"X", "CS"⟩ "e1" approveBodyW3 33).2 "e1"
      = some { flW3 with
          approvedAt := some 33, approvedBy := some "adm",
          approvedByName := some "Admin", mentorAssigned := some "m1",
          mentorName := some "Mentor" } :=
  (moderate_always_stamps dbW3 admX3 ⟨"X", "CS"⟩ "e1" approveBodyW3 33 evX3 flW3
      (by decide) (by decide) (by decide)).1 rfl

def evC4 : Event := {
  id := "e1", collegeId := "X", authorId := "s1", authorName := "Stu",
  authorRole := "STUDENT", title := "t", description := "d", startAt := 0,
  endAt := 0, type := EventType.WORKSHOP, mode := EventMode.ONSITE,
  location := some "hall", meetingUrl := none, capacity := none,
  visibleToAllDepts := true, departments := [], tags := [],
  moderationStatus := ModerationStatus.PENDING_REVIEW, monitorId := none,
  monitorName := none }

def flC4 : EventApprovalFlow := {
  eventId := "e1", assignedTo := none, assignedToName := none, submittedAt := 0,
  approvedAt := none, approvedBy := none, approvedByName := none,
  rejectedAt := none, rejectedBy := none, rejectedByName := none,
  rejectionReason := none, isEscalated := false, escalatedAt := none,
  escalatedTo := none, escalatedToName := none, mentorAssigned := none,
  mentorName := none }

def polC4 : EscalationPolicy := {
  collegeId := "X", escalationDelayHours := 72, backupApprovers := [],
  autoEscalateToHead := true }

def dbC4 : DB := {
  events := [evC4], registrations := [], flows := [flC4], policies := [polC4],
  headAdmins := [("X", "head1", "Head Admin")] }

/-- C4: an approval flow 73 hours past submission under a 72-hour policy with
autoEscalateToHead set, no backup approvers, and a HEAD_ADMIN on record for the
college is NOT escalated by the sweep: `findHeadAdmin` is an unimplemented stub
that returns null for every college, so the sweep leaves the store untouched
(isEscalated stays false), contradicting the claimed transition. -/
theorem checkEscalation_headAdmin_stub_noop :
    checkEscalation dbC4 "e1" (73 * 60 * 60 * 1000) = dbC4
    ∧ (findFlow dbC4 "e1").map (fun fl => fl.isEscalated) = some false
    ∧ findHeadAdmin dbC4 "X" = none
    ∧ dbC4.headAdmins = [("X", "head1", "Head Admin")]
    ∧ polC4.autoEscalateToHead = true ∧ polC4.backupApprovers = [] :=
  ⟨by decide, by decide, rfl, rfl, rfl, rfl⟩

def evC6 : Event := {
  id := "e3", collegeId := "Y", authorId := "s1", authorName := "Stu",
  authorRole := "STUDENT", title := "t", description := "d", startAt := 0,
  endAt := 0, type := EventType.SEMINAR, mode := EventMode.ONSITE,
  location := some "hall", meetingUrl := none, capacity := none,
  visibleToAllDepts := false, departments := ["EE"], tags := [],
  moderationStatus := ModerationStatus.APPROVED, monitorId := none,
  monitorName := none }

def dbC6 : DB := {
  events := [evC6], registrations := [], flows := [], policies := [],
  headAdmins := [] }

/-- C6 counterexample: the admin single-event fetch of an event that exists in
another college returns Forbidden (403 "Access denied"), not NotFound. -/
theorem admin_fetch_forbidden_cex :
    adminGetEvent dbC6 "X" "e3" = FetchResult.forbidden := by decide

/-- C6 (amended): the non-admin single-event fetch can never answer Forbidden —
an event that is absent from the caller's college or invisible to a student
caller yields NotFound — but the admin fetch (GET /v1/admin/events/:id) answers
Forbidden, not NotFound, for an event stored under another college. -/
theorem fetch_notFound_semantics :
    (∀ (db : DB) (p : Principal) (scope : Scope) (id : String),
      getEvent db p scope id ≠ FetchResult.forbidden)
    ∧ (∀ (db : DB) (p : Principal) (scope : Scope) (id : String) (ev : Event),
      findEvent db id scope.collegeId = some ev → hasRole p "STUDENT" = true →
      studentVisible ev scope = false →
      getEvent db p scope id = FetchResult.notFound)
    ∧ (∀ (db : DB) (a id : String) (ev : Event),
      findEventById db id = some ev → ev.collegeId ≠ a →
      adminGetEvent db a id = FetchResult.forbidden) := by
  refine ⟨?_, ?_, ?_⟩
  · intro db p scope id
    unfold getEvent
    split
    · simp
    · split <;> simp
  · intro db p scope id ev hfind hrole hvis
    unfold getEvent
    rw [hfind]
    simp [hrole, hvis]
  · intro db a id ev hfind hne
    unfold adminGetEvent
    rw [hfind]
    have hc : canAccessCollege a ev.collegeId = false := by
      unfold canAccessCollege
      simp only [beq_eq_false_iff_ne, ne_eq]
      exact fun hh => hne hh.symm
    simp [hc]

def dbW6 : DB := {
  events := [evC6], registrations := [], flows := [], policies := [],
  headAdmins := [] }

def stuW6 : Principal := { sub := "s9", roles := ["STUDENT"], displayName := none }

/-- Witness for the amended C6: a student fetch of a stored but invisible event
answers NotFound (and no fetch of this route answers Forbidden), while the admin
fetch of the same event from another college answers Forbidden. -/
theorem fetch_notFound_semantics_witness :
    getEvent dbW6 stuW6 ⟨"Y", "CS"⟩ "e3" ≠ FetchResult.forbidden
    ∧ getEvent dbW6 stuW6 ⟨"Y", "CS"⟩ "e3" = FetchResult.notFound
    ∧ adminGetEvent dbW6 "X" "e3" = FetchResult.forbidden := by
  refine ⟨?_, ?_, ?_⟩
  · exact fetch_notFound_semantics.1 dbW6 stuW6 ⟨"Y", "CS"⟩ "e3"
  · exact fetch_notFound_semantics.2.1 dbW6 stuW6 ⟨"Y", "CS"⟩ "e3" evC6
      (by decide) (by decide) (by decide)
  · exact fetch_notFound_semantics.2.2 dbW6 "X" "e3" evC6 (by decide) (by decide)

theorem mem_insertByStart (a e : Event) (l : List Event)
    (h : a ∈ insertByStart e l) : a = e ∨ a ∈ l := by
  induction l with
  | nil =>
    unfold insertByStart at h
    simp only [List.mem_singleton] at h
    exact Or.inl h
  | cons x xs ih =>
    unfold insertByStart at h
    by_cases hle : e.startAt ≤ x.startAt
    · rw [if_pos hle] at h
      rcases List.mem_cons.mp h with h1 | h1
      · exact Or.inl h1
      · exact Or.inr h1
    · rw [if_neg hle] at h
      rcases List.mem_cons.mp h with h1 | h1
      · subst h1
        exact Or.inr (List.mem_cons_self a xs)
      · rcases ih h1 with h2 | h2
        · exact Or.inl h2
        · exact Or.inr (List.mem_cons_of_mem x h2)

theorem mem_sortByStart (a : Event) (l : List Event)
    (h : a ∈ sortByStart l) : a ∈ l := by
  induction l with
  | nil => simpa [sortByStart] using h
  | cons x xs ih =>
    unfold sortByStart at h
    rcases mem_insertByStart a x (sortByStart xs) h with h1 | h1
    · exact h1 ▸ List.mem_cons_self x xs
    · exact List.mem_cons_of_mem x (ih h1)

/-- Every event on a returned page is a stored row satisfying the built `where`
predicate. -/
theorem listWhere_of_mem_listEvents (db : DB) (scope : Scope) (isStudent : Bool)
    (q : ListQuery) (now : Nat) (e : Event)
    (h : e ∈ listEvents db scope isStudent q now) :
    e ∈ db.events ∧ listWhere scope isStudent q now e = true := by
  unfold listEvents at h
  have h1 := List.mem_of_mem_take h
  have h2 := List.mem_of_mem_drop h1
  have h3 := mem_sortByStart e _ h2
  exact ⟨(List.mem_filter.mp h3).1, (List.mem_filter.mp h3).2⟩

def evC5 : Event := {
  id := "e2", collegeId := "X", authorId := "f1", authorName := "Fac",
  authorRole := "FACULTY", title := "rust workshop", description := "hands on",
  startAt := 50, endAt := 60, type := EventType.WORKSHOP,
  mode := EventMode.ONSITE, location := some "hall", meetingUrl := none,
  capacity := none, visibleToAllDepts := false, departments := ["EE"],
  tags := [], moderationStatus := ModerationStatus.APPROVED, monitorId := none,
  monitorName := none }

def dbC5 : DB := {
  events := [evC5], registrations := [], flows := [], policies := [],
  headAdmins := [] }

def qC5 : ListQuery := {
  q := some "rust", department := none, type := none, mode := none,
  status := none, fromAt := none, toAt := none, upcomingOnly := false,
  page := 1, limit := 20 }

/-- C5 counterexample: a STUDENT in department CS searching q="rust" is returned
an APPROVED event restricted to department EE (visibleToAllDepts=false), because
the text-search disjuncts are appended to the same OR as the visibility pair
instead of being conjoined with it. -/
theorem list_search_bypasses_visibility_cex :
    listEvents dbC5 ⟨"X", "CS"⟩ true qC5 0 = [evC5]
    ∧ evC5.visibleToAllDepts = false
    ∧ evC5.departments.contains "CS" = false :=
  ⟨by decide, rfl, by decide⟩

/-- C5 (amended): every event a STUDENT list query returns belongs to the
caller's college and is APPROVED; when the query carries no text-search term `q`
and no department filter, the event is additionally department-visible to the
caller (visibleToAllDepts or the caller's department listed). With `q` or a
department filter supplied, those disjuncts join the visibility OR, so
department visibility is no longer guaranteed. -/
theorem list_student_visibility :
    (∀ (db : DB) (scope : Scope) (q : ListQuery) (now : Nat) (e : Event),
      e ∈ listEvents db scope true q now →
      e.collegeId = scope.collegeId
      ∧ e.moderationStatus = ModerationStatus.APPROVED)
    ∧ (∀ (db : DB) (scope : Scope) (q : ListQuery) (now : Nat) (e : Event),
      q.q = none → q.department = none →
      e ∈ listEvents db scope true q now →
      e.visibleToAllDepts = true
      ∨ e.departments.contains scope.department = true) := by
  constructor
  · intro db scope q now e hmem
    have hw := (listWhere_of_mem_listEvents db scope true q now e hmem).2
    unfold listWhere at hw
    simp only [reduceIte, Bool.and_eq_true, beq_iff_eq] at hw
    tauto
  · intro db scope q now e hq hd hmem
    have hw := (listWhere_of_mem_listEvents db scope true q now e hmem).2
    unfold listWhere at hw
    simp only [listOrConds, visibilityConds, hq, hd, Option.elim,
      List.append_nil, reduceIte, List.any_cons, List.any_nil,
      Bool.and_eq_true, Bool.or_eq_true] at hw
    tauto

def evW5 : Event := {
  id := "e9", collegeId := "X", authorId := "f1", authorName := "Fac",
  authorRole := "FACULTY", title := "intro", description := "d", startAt := 5,
  endAt := 6, type := EventType.MEETUP, mode := EventMode.ONSITE,
  location := some "hall", meetingUrl := none, capacity := none,
  visibleToAllDepts := false, departments := ["CS"], tags := [],
  moderationStatus := ModerationStatus.APPROVED, monitorId := none,
  monitorName := none }

def dbW5 : DB := {
  events := [evW5], registrations := [], flows := [], policies := [],
  headAdmins := [] }

def qW5 : ListQuery := {
  q := none, department := none, type := none, mode := none, status := none,
  fromAt := none, toAt := none, upcomingOnly := false, page := 1, limit := 20 }

/-- Witness for the amended C5: an event returned to a CS student by a plain
query is in college X, APPROVED, and department-visible. -/
theorem list_student_visibility_witness :
    (evW5.collegeId = "X" ∧ evW5.moderationStatus = ModerationStatus.APPROVED)
    ∧ (evW5.visibleToAllDepts = true ∨ evW5.departments.contains "CS" = true) := by
  constructor
  · exact list_student_visibility.1 dbW5 ⟨"X", "CS"⟩ qW5 0 evW5 (by decide)
  · exact list_student_visibility.2 dbW5 ⟨"X", "CS"⟩ qW5 0 evW5 rfl rfl (by decide)

def evC7 : Event := {
  id := "e4", collegeId := "X", authorId := "f1", authorName := "Fac",
  authorRole := "FACULTY", title := "t", description := "d", startAt := 100,
  endAt := 100, type := EventType.WORKSHOP, mode := EventMode.ONSITE,
  location := some "hall", meetingUrl := none, capacity := none,
  visibleToAllDepts := true, departments := [], tags := [],
  moderationStatus := ModerationStatus.APPROVED, monitorId := none,
  monitorName := none }

def dbC7 : DB := {
  events := [evC7], registrations := [], flows := [], policies := [],
  headAdmins := [] }

def facC7 : Principal := { sub := "f1", roles := ["FACULTY"], displayName := some "Fac" }

def endBodyC7 : UpdateBody := {
  title := none, description := none, startAt := none, endAt := some 50,
  type := none, mode := none, location := none, meetingUrl := none,
  capacity := none, visibleToAllDepts := none, departments := none, tags := none }

def modeBodyC7 : UpdateBody := {
  title := none, description := none, startAt := none, endAt := none,
  type := none, mode := some EventMode.ONLINE, location := none,
  meetingUrl := none, capacity := none, visibleToAllDepts := none,
  departments := none, tags := none }

/-- C7 counterexample: an update supplying only endAt=50 against stored
startAt=100 is persisted with endAt < startAt (the ordering check runs only when
both dates are supplied), and an update switching mode to ONLINE with no stored
or supplied meetingUrl is persisted too (no mode-dependent check runs on
update). -/
theorem update_validation_skipped_cex :
    (updateEvent dbC7 facC7 ⟨"X", "CS"⟩ "e4" endBodyC7).2.events
        = [{ evC7 with endAt := 50 }]
    ∧ ({ evC7 with endAt := 50 }).endAt < ({ evC7 with endAt := 50 }).startAt
    ∧ (updateEvent dbC7 facC7 ⟨"X", "CS"⟩ "e4" modeBodyC7).2.events
        = [{ evC7 with mode := EventMode.ONLINE }]
    ∧ ({ evC7 with mode := EventMode.ONLINE }).mode ≠ EventMode.ONSITE
    ∧ strFalsy ({ evC7 with mode := EventMode.ONLINE }).meetingUrl = true :=
  ⟨by decide, by decide, by decide, by decide, rfl⟩

/-- C7 (amended): on create, the endAt-ordering and both mode-dependent
required-field checks reject before anything is persisted; on update, only the
endAt-ordering check runs, and only when the request supplies both startAt and
endAt — mode-dependent checks are absent on update. -/
theorem validation_before_persistence :
    (∀ (db : DB) (identity : Identity) (body : CreateBody) (canCreate : Bool)
      (deptAdmin : Option (String × String)) (newId : String) (now t : Nat),
      body.endAt = some t → t < body.startAt →
      createEvent db identity body canCreate deptAdmin newId now
        = (CreateResult.badEnd, db))
    ∧ (∀ (db : DB) (identity : Identity) (body : CreateBody) (canCreate : Bool)
      (deptAdmin : Option (String × String)) (newId : String) (now : Nat),
      body.mode ≠ EventMode.ONSITE → strFalsy body.meetingUrl = true →
      (createEvent db identity body canCreate deptAdmin newId now).2 = db
      ∧ ∀ e, (createEvent db identity body canCreate deptAdmin newId now).1
          ≠ CreateResult.ok e)
    ∧ (∀ (db : DB) (identity : Identity) (body : CreateBody) (canCreate : Bool)
      (deptAdmin : Option (String × String)) (newId : String) (now : Nat),
      body.mode ≠ EventMode.ONLINE → strFalsy body.location = true →
      (createEvent db identity body canCreate deptAdmin newId now).2 = db
      ∧ ∀ e, (createEvent db identity body canCreate deptAdmin newId now).1
          ≠ CreateResult.ok e)
    ∧ (∀ (db : DB) (p : Principal) (scope : Scope) (id : String)
      (body : UpdateBody) (s t : Nat),
      body.startAt = some s → body.endAt = some t → t < s →
      (updateEvent db p scope id body).2 = db
      ∧ ∀ e, (updateEvent db p scope id body).1 ≠ UpdateResult.ok e) := by
  refine ⟨?_, ?_, ?_, ?_⟩
  · intro db identity body canCreate deptAdmin newId now t hend hlt
    unfold createEvent
    rw [hend]
    simp [hlt]
  · intro db identity body canCreate deptAdmin newId now hmode hurl
    unfold createEvent
    constructor
    · repeat' split
      all_goals (try rfl)
      all_goals (try simp_all)
      all_goals (repeat' split)
      all_goals rfl
    · intro e
      repeat' split
      all_goals (try simp_all)
      all_goals (repeat' split)
      all_goals simp
  · intro db identity body canCreate deptAdmin newId now hmode hloc
    unfold createEvent
    constructor
    · repeat' split
      all_goals (try rfl)
      all_goals (try simp_all)
      all_goals (repeat' split)
      all_goals rfl
    · intro e
      repeat' split
      all_goals (try simp_all)
      all_goals (repeat' split)
      all_goals simp
  · intro db p scope id body s t hs ht hlt
    unfold updateEvent
    constructor
    · repeat' split
      all_goals (try rfl)
      all_goals (try simp_all)
      all_goals (repeat' split)
      all_goals rfl
    · intro e
      repeat' split
      all_goals (try simp_all)
      all_goals (repeat' split)
      all_goals simp

def badUpdateW7 : UpdateBody := {
  title := none, description := none, startAt := some 100, endAt := some 50,
  type := none, mode := none, location := none, meetingUrl := none,
  capacity := none, visibleToAllDepts := none, departments := none, tags := none }

def badCreateW7 : CreateBody := {
  title := "t", description := "d", startAt := 100, endAt := some 50,
  type := EventType.WORKSHOP, mode := EventMode.ONSITE, location := some "hall",
  meetingUrl := none, capacity := none, visibleToAllDepts := true,
  departments := [], tags := [] }

def idW7 : Identity := {
  id := "f1", displayName := "Fac", roles := ["FACULTY"], collegeId := "X",
  department := "CS" }

/-- Witness for C7: a create with endAt before startAt is refused with nothing
persisted, and an update supplying both dates out of order is refused too. -/
theorem validation_before_persistence_witness :
    createEvent dbC7 idW7 badCreateW7 true none "n1" 0 = (CreateResult.badEnd, dbC7)
    ∧ (updateEvent dbC7 facC7 ⟨"X", "CS"⟩ "e4" badUpdateW7).2 = dbC7
    ∧ (updateEvent dbC7 facC7 ⟨"X", "CS"⟩ "e4" badUpdateW7).1
        ≠ UpdateResult.ok evC7 := by
  refine ⟨?_, ?_, ?_⟩
  · exact validation_before_persistence.1 dbC7 idW7 badCreateW7 true none "n1" 0
      50 rfl (by decide)
  · exact (validation_before_persistence.2.2.2 dbC7 facC7 ⟨"X", "CS"⟩ "e4"
      badUpdateW7 100 50 rfl rfl (by decide)).1
  · exact (validation_before_persistence.2.2.2 dbC7 facC7 ⟨"X", "CS"⟩ "e4"
      badUpdateW7 100 50 rfl rfl (by decide)).2 evC7

/-- C8: an event successfully created by a principal whose roles include STUDENT
(`identity.roles.contains "STUDENT"`, written as membership here) starts
PENDING_REVIEW and an approval-flow row for it is appended; a creation by a
principal without the STUDENT role (FACULTY, DEPT_ADMIN or HEAD_ADMIN) starts
APPROVED and appends no approval flow. -/
theorem creation_moderation_status (db : DB) (identity : Identity)
    (body : CreateBody) (canCreate : Bool) (deptAdmin : Option (String × String))
    (newId : String) (now : Nat) (e : Event)
    (h : (createEvent db identity body canCreate deptAdmin newId now).1
        = CreateResult.ok e) :
    ("STUDENT" ∈ identity.roles →
      e.moderationStatus = ModerationStatus.PENDING_REVIEW
      ∧ ∃ fl, (createEvent db identity body canCreate deptAdmin newId now).2.flows
          = db.flows ++ [fl] ∧ fl.eventId = newId)
    ∧ ("STUDENT" ∉ identity.roles →
      e.moderationStatus = ModerationStatus.APPROVED
      ∧ (createEvent db identity body canCreate deptAdmin newId now).2.flows
          = db.flows) := by
  rcases hres : createEvent db identity body canCreate deptAdmin newId now
    with ⟨res, db2⟩
  rw [hres] at h
  dsimp only at h
  subst h
  dsimp only
  unfold createEvent at hres
  dsimp only at hres
  repeat' (split at hres)
  all_goals first
    | (exfalso
       rw [Prod.mk.injEq] at hres
       simp at hres
       done)
    | (rw [Prod.mk.injEq] at hres
       obtain ⟨h1, h2⟩ := hres
       injection h1 with h1
       subst h1
       subst h2
       constructor <;> intro hstu <;>
         first
         | exact ⟨by simp_all, ⟨_, rfl, rfl⟩⟩
         | exact ⟨by simp_all, rfl⟩
         | (exfalso; simp_all))

def idW8 : Identity := {
  id := "s1", displayName := "Stu", roles := ["STUDENT"], collegeId := "X",
  department := "CS" }

def idW8f : Identity := {
  id := "f1", displayName := "Fac", roles := ["FACULTY"], collegeId := "X",
  department := "CS" }

def bodyW8 : CreateBody := {
  title := "t", description := "d", startAt := 10, endAt := none,
  type := EventType.WORKSHOP, mode := EventMode.ONSITE, location := some "hall",
  meetingUrl := none, capacity := none, visibleToAllDepts := true,
  departments := [], tags := [] }

def dbW8 : DB := {
  events := [], registrations := [], flows := [], policies := [],
  headAdmins := [] }

def createdW8 : Event := {
  id := "n1", collegeId := "X", authorId := "s1", authorName := "Stu",
  authorRole := "STUDENT", title := "t", description := "d", startAt := 10,
  endAt := 10, type := EventType.WORKSHOP, mode := EventMode.ONSITE,
  location := some "hall", meetingUrl := none, capacity := none,
  visibleToAllDepts := true, departments := [], tags := [],
  moderationStatus := ModerationStatus.PENDING_REVIEW, monitorId := none,
  monitorName := none }

def createdW8f : Event := {
  id := "n2", collegeId := "X", authorId := "f1", authorName := "Fac",
  authorRole := "FACULTY", title := "t", description := "d", startAt := 10,
  endAt := 10, type := EventType.WORKSHOP, mode := EventMode.ONSITE,
  location := some "hall", meetingUrl := none, capacity := none,
  visibleToAllDepts := true, departments := [], tags := [],
  moderationStatus := ModerationStatus.APPROVED, monitorId := none,
  monitorName := none }

/-- Witness for C8: a student creation yields PENDING_REVIEW plus a flow row; a
faculty creation yields APPROVED and leaves the flows table untouched. -/
theorem creation_moderation_status_witness :
    (createdW8.moderationStatus = ModerationStatus.PENDING_REVIEW
      ∧ ∃ fl, (createEvent dbW8 idW8 bodyW8 true none "n1" 5).2.flows
          = dbW8.flows ++ [fl] ∧ fl.eventId = "n1")
    ∧ (createdW8f.moderationStatus = ModerationStatus.APPROVED
      ∧ (createEvent dbW8 idW8f bodyW8 true none "n2" 5).2.flows = dbW8.flows) :=
  ⟨(creation_moderation_status dbW8 idW8 bodyW8 true none "n1" 5 createdW8
      (by decide)).1 (by decide),
   (creation_moderation_status dbW8 idW8f bodyW8 true none "n2" 5 createdW8f
      (by decide)).2 (by decide)⟩

def evC9 : Event := {
  id := "e5", collegeId := "X", authorId := "f1", authorName := "Fac",
  authorRole := "FACULTY", title := "t", description := "d", startAt := 0,
  endAt := 0, type := EventType.WORKSHOP, mode := EventMode.ONSITE,
  location := some "hall", meetingUrl := none, capacity := none,
  visibleToAllDepts := false, departments := ["EE"], tags := [],
  moderationStatus := ModerationStatus.APPROVED, monitorId := none,
  monitorName := none }

def dbC9 : DB := {
  events := [evC9], registrations := [], flows := [], policies := [],
  headAdmins := [] }

def visBodyC9 : UpdateBody := {
  title := none, description := none, startAt := none, endAt := none,
  type := none, mode := none, location := none, meetingUrl := none,
  capacity := none, visibleToAllDepts := some true, departments := none,
  tags := none }

/-- C9 counterexample: an update that sets visibleToAllDepts=true without also
supplying departments leaves the stored non-empty departments in place — the
persisted row has visibleToAllDepts=true and departments=["EE"]. -/
theorem visibleToAllDepts_stale_departments_cex :
    (updateEvent dbC9 facC7 ⟨"X", "CS"⟩ "e5" visBodyC9).2.events
      = [{ evC9 with visibleToAllDepts := true }]
    ∧ ({ evC9 with visibleToAllDepts := true }).visibleToAllDepts = true
    ∧ ({ evC9 with visibleToAllDepts := true }).departments = ["EE"] :=
  ⟨by decide, rfl, rfl⟩

/-- C9 (amended): on create, visibleToAllDepts=true forces the stored
departments empty; on update, a supplied departments value is forced empty
whenever the effective visibleToAllDepts is true — but an update that does not
supply departments leaves the stored departments unchanged even when it flips
visibleToAllDepts to true. -/
theorem visibleToAllDepts_forces_empty :
    (∀ (db : DB) (identity : Identity) (body : CreateBody) (canCreate : Bool)
      (deptAdmin : Option (String × String)) (newId : String) (now : Nat)
      (e : Event),
      (createEvent db identity body canCreate deptAdmin newId now).1
          = CreateResult.ok e →
      body.visibleToAllDepts = true → e.departments = [])
    ∧ (∀ (db : DB) (p : Principal) (scope : Scope) (id : String)
      (body : UpdateBody) (e : Event) (ds : List String),
      (updateEvent db p scope id body).1 = UpdateResult.ok e →
      body.departments = some ds → e.visibleToAllDepts = true →
      e.departments = []) := by
  constructor
  · intro db identity body canCreate deptAdmin newId now e hres0 hvis
    rcases hres : createEvent db identity body canCreate deptAdmin newId now
      with ⟨res, db2⟩
    rw [hres] at hres0
    dsimp only at hres0
    subst hres0
    unfold createEvent at hres
    dsimp only at hres
    repeat' (split at hres)
    all_goals first
      | (exfalso
         rw [Prod.mk.injEq] at hres
         simp at hres
         done)
      | (rw [Prod.mk.injEq] at hres
         obtain ⟨h1, h2⟩ := hres
         injection h1 with h1
         subst h1
         first
         | rfl
         | simp_all)
  · intro db p scope id body e ds hres0 hds hvis
    rcases hres : updateEvent db p scope id body with ⟨res, db2⟩
    rw [hres] at hres0
    dsimp only at hres0
    subst hres0
    unfold updateEvent at hres
    dsimp only at hres
    repeat' (split at hres)
    all_goals first
      | (exfalso
         rw [Prod.mk.injEq] at hres
         simp at hres
         done)
      | (rw [Prod.mk.injEq] at hres
         obtain ⟨h1, h2⟩ := hres
         injection h1 with h1
         subst h1
         simp_all [applyUpdate])

def visDeptBodyW9 : UpdateBody := {
  title := none, description := none, startAt := none, endAt := none,
  type := none, mode := none, location := none, meetingUrl := none,
  capacity := none, visibleToAllDepts := some true,
  departments := some ["EE"], tags := none }

def updatedW9 : Event := { evC9 with visibleToAllDepts := true, departments := [] }

/-- Witness for the amended C9: a create with visibleToAllDepts=true stores an
empty departments set, and an update supplying both visibleToAllDepts=true and a
departments list stores an empty set as well. -/
theorem visibleToAllDepts_forces_empty_witness :
    createdW8.departments = [] ∧ updatedW9.departments = [] :=
  ⟨visibleToAllDepts_forces_empty.1 dbW8 idW8 bodyW8 true none "n1" 5 createdW8
      (by decide) rfl,
   visibleToAllDepts_forces_empty.2 dbC9 facC7 ⟨"X", "CS"⟩ "e5" visDeptBodyW9
      updatedW9 ["EE"] (by decide) rfl rfl⟩
